import Mathlib

/-!
Verification of the India_weather_streamlit data pipeline.

The development shallowly embeds the Python source (src/app.py, src/fetch.py):

* `safe_get` models the retry/backoff HTTP helper defined identically in
  app.py (lines 52-67) and fetch.py (lines 26-40).  A run is driven by a
  list of per-attempt outcomes (`Attempt`): either a response with a status
  code or an exception raised by `requests.get`.  The model records the
  number of attempts performed and the list of sleep durations.
* `ORow`/`Row` model the per-region observation rows (date, temperature,
  precipitation, nullable values as `Option ℚ`).
* `fetch_open_meteo_multi` models the multi-region aggregation loop of
  app.py (lines 89-106), parameterised by the single-region fetch, and
  counts how many single-region fetches were invoked.
* `temp_roll` and `rollingMean` model
  `groupby("region")["temp"].transform(lambda s: s.rolling(w, min_periods=1).mean())`
  from app.py line 148: at each row, the value is the mean of the non-null
  temperatures among the up-to-`w` most recent rows of the same region,
  and null when the window holds no non-null value.
* `stats`/`Summary` model the `groupby("region").agg(...)` table of
  app.py lines 177-182 with pandas skip-NaN semantics: `mean`/`max` are
  null on all-null input, `(s>=40).sum()` counts `True`s, `sum` of an
  all-null column is 0.
* `main` of fetch.py (lines 59-73) is modelled by `fetchTables`/`mainRun`:
  sequential per-region fetch, concatenation, sort by (region, date) and
  the CSV header taken from the DataFrame column order.
* The TTL cache (`st.cache_data(ttl=3600)`) is external library code, so
  `get_or_fetch` is modelled from the spec (section 4.5).
-/

namespace IndiaWeather

/-- Outcome of one `requests.get` call: a response carrying a status code,
or an exception raised by the transport. -/
inductive Attempt where
  | resp (status : Nat)
  | exc (msg : String)
deriving DecidableEq, Repr

/-- Result of a `safe_get` run: the returned 200 response, an
`HTTPError` raised by `raise_for_status` and re-raised on the final
attempt, a transport exception re-raised on the final attempt, or the
final `RuntimeError("Failed to GET " + url)`, which carries only the URL.
Each constructor records the number of attempts made and the list of
sleep durations (in seconds) performed before finishing. -/
inductive GetResult where
  | ok (status : Nat) (attempts : Nat) (sleeps : List ℚ)
  | httpError (status : Nat) (attempts : Nat) (sleeps : List ℚ)
  | excRaised (msg : String) (attempts : Nat) (sleeps : List ℚ)
  | exhausted (attempts : Nat) (sleeps : List ℚ)
deriving DecidableEq, Repr

/-- The retryable statuses of app.py line 59 / fetch.py line 32:
`r.status_code in (429, 500, 502, 503, 504)`. -/
def retryable (s : Nat) : Bool :=
  s = 429 || s = 500 || s = 502 || s = 503 || s = 504

/-- `requests.Response.raise_for_status` raises `HTTPError` exactly for
status codes in 400..599. -/
def raisesForStatus (s : Nat) : Bool :=
  decide (400 ≤ s) && decide (s < 600)

/-- Placeholder exception used when the event list is shorter than the
number of attempts: the transport raises a connection error. -/
def connErr : String := "ConnectionError"

/-- The body of `safe_get`'s `for i in range(retries)` loop.  `rem` is the
number of remaining iterations (so the final iteration is `rem = 1`,
matching `i == retries - 1`), `i` the 0-based index of the current
attempt and `sleeps` the sleeps performed so far.  Branches mirror the
source: status 200 returns; a retryable status sleeps
`backoff * (i+1)` and continues (even on the last attempt, after which
the loop ends in `RuntimeError`); any other status goes through
`raise_for_status`, which raises only for 400..599, and that exception —
like a transport exception — is caught, re-raised on the last attempt and
otherwise followed by a sleep; a non-error status below 400 falls through
the `try` body and the loop continues without sleeping. -/
def safeGetGo (backoff : ℚ) (events : List Attempt) :
    Nat → Nat → List ℚ → GetResult
  | 0, i, sleeps => GetResult.exhausted i sleeps
  | rem + 1, i, sleeps =>
    match events.getD i (Attempt.exc connErr) with
    | Attempt.resp s =>
      if s = 200 then GetResult.ok s (i + 1) sleeps
      else if retryable s then
        safeGetGo backoff events rem (i + 1)
          (sleeps ++ [backoff * ((i + 1 : Nat) : ℚ)])
      else if raisesForStatus s then
        match rem with
        | 0 => GetResult.httpError s (i + 1) sleeps
        | _ + 1 =>
          safeGetGo backoff events rem (i + 1)
            (sleeps ++ [backoff * ((i + 1 : Nat) : ℚ)])
      else
        safeGetGo backoff events rem (i + 1) sleeps
    | Attempt.exc m =>
      match rem with
      | 0 => GetResult.excRaised m (i + 1) sleeps
      | _ + 1 =>
        safeGetGo backoff events rem (i + 1)
          (sleeps ++ [backoff * ((i + 1 : Nat) : ℚ)])

/-- `safe_get(url, retries, backoff, timeout)` of app.py lines 52-67 and
fetch.py lines 26-40, driven by the list of per-attempt outcomes. -/
def safe_get (backoff : ℚ) (retries : Nat) (events : List Attempt) : GetResult :=
  safeGetGo backoff events retries 0 []

/-- A result other than a returned 200 response is an error raise. -/
def isErr : GetResult → Bool
  | GetResult.ok _ _ _ => false
  | _ => true

/-- Whether the raised error carries the last HTTP status or the last
exception: `HTTPError` carries the status, a re-raised exception carries
the exception, while `RuntimeError("Failed to GET " + url)` carries
neither. -/
def errCarriesInfo : GetResult → Bool
  | GetResult.httpError _ _ _ => true
  | GetResult.excRaised _ _ _ => true
  | _ => false

/-- Claim C1: with retries = 3, responses [503, 503, 200] make `safe_get`
return the 200 response after exactly 2 backoff sleeps, of `backoff * 1`
and `backoff * 2` seconds; all-503 responses make it raise after exactly
3 request attempts (the final `RuntimeError`, after sleeps of
`backoff * 1`, `backoff * 2`, `backoff * 3`). -/
theorem safe_get_retry_policy (b : ℚ) :
    safe_get b 3 [Attempt.resp 503, Attempt.resp 503, Attempt.resp 200]
      = GetResult.ok 200 3 [b * 1, b * 2] ∧
    safe_get b 3 [Attempt.resp 503, Attempt.resp 503, Attempt.resp 503]
      = GetResult.exhausted 3 [b * 1, b * 2, b * 3] := by
  constructor <;> norm_num [safe_get, safeGetGo, retryable, raisesForStatus]

/-- Specification of what information each kind of `safe_get` outcome
carries, relative to the event list and the total attempt budget:
an `HTTPError` carries exactly the final attempt's status (a non-200,
non-retryable status in 400..599) and happens on the last attempt; a
re-raised exception is the final attempt's exception on the last attempt;
the `RuntimeError` happens after the full budget of attempts. -/
def resSpec (events : List Attempt) (total : Nat) : GetResult → Prop
  | GetResult.ok _ _ _ => True
  | GetResult.httpError s n _ =>
      events.getD (n - 1) (Attempt.exc connErr) = Attempt.resp s ∧ s ≠ 200 ∧
      retryable s = false ∧ raisesForStatus s = true ∧ n = total
  | GetResult.excRaised m n _ =>
      events.getD (n - 1) (Attempt.exc connErr) = Attempt.exc m ∧ n = total
  | GetResult.exhausted n _ => n = total

theorem safeGetGo_succ_eq (b : ℚ) (events : List Attempt) (rem i : Nat)
    (sleeps : List ℚ) :
    safeGetGo b events (rem + 1) i sleeps =
      match events.getD i (Attempt.exc connErr) with
      | Attempt.resp s =>
        if s = 200 then GetResult.ok s (i + 1) sleeps
        else if retryable s then
          safeGetGo b events rem (i + 1)
            (sleeps ++ [b * ((i + 1 : Nat) : ℚ)])
        else if raisesForStatus s then
          match rem with
          | 0 => GetResult.httpError s (i + 1) sleeps
          | _ + 1 =>
            safeGetGo b events rem (i + 1)
              (sleeps ++ [b * ((i + 1 : Nat) : ℚ)])
        else
          safeGetGo b events rem (i + 1) sleeps
      | Attempt.exc m =>
        match rem with
        | 0 => GetResult.excRaised m (i + 1) sleeps
        | _ + 1 =>
          safeGetGo b events rem (i + 1)
            (sleeps ++ [b * ((i + 1 : Nat) : ℚ)]) := rfl

theorem safeGetGo_resSpec (b : ℚ) (events : List Attempt) :
    ∀ rem i sleeps, resSpec events (i + rem) (safeGetGo b events rem i sleeps) := by
  intro rem
  induction rem with
  | zero =>
    intro i sleeps
    show i = i + 0
    omega
  | succ rem ih =>
    intro i sleeps
    have harith : i + (rem + 1) = (i + 1) + rem := by omega
    rw [harith, safeGetGo_succ_eq]
    cases hev : events.getD i (Attempt.exc connErr) with
    | resp s =>
      dsimp only
      by_cases h200 : s = 200
      · rw [if_pos h200]
        trivial
      · rw [if_neg h200]
        by_cases hretry : retryable s = true
        · rw [if_pos hretry]
          exact ih (i + 1) _
        · rw [if_neg hretry]
          by_cases hraise : raisesForStatus s = true
          · rw [if_pos hraise]
            cases rem with
            | zero =>
              refine ⟨by simpa using hev, h200, by simpa using hretry, hraise, by omega⟩
            | succ r =>
              exact ih (i + 1) _
          · rw [if_neg hraise]
            exact ih (i + 1) _
    | exc m =>
      dsimp only
      cases rem with
      | zero =>
        exact ⟨by simpa using hev, by omega⟩
      | succ r =>
        exact ih (i + 1) _

/-- Claim C2 (counterexample): with retries = 3 and every response being
status 204 (a non-200 status outside the retryable set, for which
`raise_for_status` does not raise since 204 < 400), `safe_get` raises the
final `RuntimeError("Failed to GET " + url)`, which carries neither the
last HTTP status nor any exception — contradicting the claim that such a
call raises an error carrying the last status or last exception. -/
theorem safe_get_info_counterexample :
    safe_get 1 3 [Attempt.resp 204, Attempt.resp 204, Attempt.resp 204]
      = GetResult.exhausted 3 [] ∧
    isErr (safe_get 1 3 [Attempt.resp 204, Attempt.resp 204, Attempt.resp 204])
      = true ∧
    errCarriesInfo
      (safe_get 1 3 [Attempt.resp 204, Attempt.resp 204, Attempt.resp 204])
      = false := by
  refine ⟨rfl, rfl, rfl⟩

/-- Claim C2 (amended): when `safe_get` raises an `HTTPError`, it carries
the status of the final attempt's response — a non-200 status in 400..599
outside the retryable set — and this happens on attempt number `retries`;
when it re-raises an exception, that is the final attempt's exception, on
attempt `retries`; but when the retry loop exhausts all `retries` attempts
(via retryable statuses, non-error statuses below 400, or exceptions on
non-final attempts), the raised `RuntimeError` names only the URL and
carries neither the last status nor the last exception. -/
theorem safe_get_error_info (b : ℚ) (retries : Nat) (events : List Attempt) :
    (∀ s n sl, safe_get b retries events = GetResult.httpError s n sl →
      events.getD (n - 1) (Attempt.exc connErr) = Attempt.resp s ∧ s ≠ 200 ∧
      retryable s = false ∧ raisesForStatus s = true ∧ n = retries) ∧
    (∀ m n sl, safe_get b retries events = GetResult.excRaised m n sl →
      events.getD (n - 1) (Attempt.exc connErr) = Attempt.exc m ∧ n = retries) ∧
    (∀ n sl, safe_get b retries events = GetResult.exhausted n sl →
      errCarriesInfo (GetResult.exhausted n sl) = false ∧ n = retries) := by
  have master := safeGetGo_resSpec b events retries 0 []
  rw [Nat.zero_add] at master
  refine ⟨?_, ?_, ?_⟩
  · intro s n sl h
    rw [safe_get] at h
    rw [h] at master
    exact master
  · intro m n sl h
    rw [safe_get] at h
    rw [h] at master
    exact master
  · intro n sl h
    rw [safe_get] at h
    rw [h] at master
    exact ⟨rfl, master⟩

/-- Message used for a concrete transport exception in witnesses. -/
def boomMsg : String := "boom"

/-- Witness for `safe_get_error_info`: concrete single-attempt runs
ending in an `HTTPError` for status 404, a re-raised exception, and the
`RuntimeError` after a fall-through 204 response. -/
theorem safe_get_error_info_witness :
    (List.getD [Attempt.resp 404] 0 (Attempt.exc connErr) = Attempt.resp 404 ∧
      404 ≠ 200 ∧ retryable 404 = false ∧ raisesForStatus 404 = true ∧ 1 = 1) ∧
    (List.getD [Attempt.exc boomMsg] 0 (Attempt.exc connErr)
      = Attempt.exc boomMsg ∧ 1 = 1) ∧
    (errCarriesInfo (GetResult.exhausted 1 []) = false ∧ 1 = 1) :=
  ⟨(safe_get_error_info 1 1 [Attempt.resp 404]).1 404 1 [] rfl,
   (safe_get_error_info 1 1 [Attempt.exc boomMsg]).2.1 boomMsg 1 [] rfl,
   (safe_get_error_info 1 1 [Attempt.resp 204]).2.2 1 [] rfl⟩

/-- One row of a single-region DataFrame built by
`fetch_open_meteo_single` / `fetch_region`: parallel arrays zipped into
rows of date, nullable mean temperature and nullable precipitation.
Dates are modelled as naturals (days), numeric values as rationals. -/
structure ORow where
  date : Nat
  temp : Option ℚ
  precip : Option ℚ
deriving DecidableEq, Repr

/-- One row of the combined table `data` with columns
date, temp, precip, region (the region tag added by the aggregator). -/
structure Row where
  region : String
  date : Nat
  temp : Option ℚ
  precip : Option ℚ
deriving DecidableEq, Repr

/-- The non-null values of a nullable column, in order — the values pandas
skip-NaN reductions operate on. -/
def somes (xs : List (Option ℚ)) : List ℚ :=
  xs.filterMap id

/-- The up-to-`w` trailing elements of a list: the window rows that
`Series.rolling(w)` sees at the last position. -/
def lastN (w : Nat) (l : List α) : List α :=
  l.drop (l.length - w)

/-- The value of `s.rolling(w, min_periods=minp).mean()` at the last
position of the series `xs`: the mean of the non-null values among the
up-to-`w` trailing entries if at least `minp` of them are non-null, else
NaN (modelled as `none`). -/
def rollAtEnd (w minp : Nat) (xs : List (Option ℚ)) : Option ℚ :=
  let v := somes (lastN w xs)
  if minp ≤ v.length then some (v.sum / (v.length : ℚ)) else none

/-- `s.rolling(w, min_periods=minp).mean()` over a whole series: at index
`i` the window is the up-to-`w` trailing entries of the prefix ending at
`i`. -/
def rollingMean (w minp : Nat) (xs : List (Option ℚ)) : List (Option ℚ) :=
  xs.mapIdx (fun i _ => rollAtEnd w minp (xs.take (i + 1)))

/-- `pandas.Series.mean()` with default skipna: the arithmetic mean of the
non-null values, NaN (`none`) when there are none. -/
def meanOpt (xs : List (Option ℚ)) : Option ℚ :=
  if somes xs = [] then none
  else some ((somes xs).sum / ((somes xs).length : ℚ))

/-- app.py line 148:
`data.groupby("region")["temp"].transform(lambda s: s.rolling(roll_days, min_periods=1).mean())`.
Row `i` receives the rolling value at its own position inside its region's
series, i.e. the windowed mean over the up-to-`w` most recent rows of the
same region at positions `≤ i`. -/
def temp_roll (w : Nat) (t : List Row) : List (Option ℚ) :=
  t.mapIdx (fun i r =>
    rollAtEnd w 1
      (((t.take (i + 1)).filter (fun q => decide (q.region = r.region))).map Row.temp))

theorem lastN_one_append (l : List α) (x : α) : lastN 1 (l ++ [x]) = [x] := by
  have h : (l ++ [x]).length - 1 = l.length := by simp
  rw [lastN, h, List.drop_left]

theorem rollAtEnd_one_append (l : List (Option ℚ)) (x : Option ℚ) :
    rollAtEnd 1 1 (l ++ [x]) = x := by
  simp only [rollAtEnd, lastN_one_append]
  cases x with
  | none => simp [somes]
  | some v => simp [somes]

/-- Claim C3: the per-region trailing rolling mean with window 1 equals
the raw `temp` column at every row of every table (a null temperature
stays null). -/
theorem temp_roll_window_one (t : List Row) (i : Nat) (hi : i < t.length) :
    (temp_roll 1 t).getD i none = (t.map Row.temp).getD i none := by
  have hlen : i < (temp_roll 1 t).length := by
    simpa [temp_roll] using hi
  have hlen2 : i < (t.map Row.temp).length := by simpa using hi
  rw [List.getD_eq_getElem _ _ hlen, List.getD_eq_getElem _ _ hlen2]
  simp only [temp_roll]
  rw [List.getElem_mapIdx, List.getElem_map]
  have htake : t.take (i + 1) = t.take i ++ [t[i]] := by
    rw [List.take_succ]
    simp [List.getElem?_eq_getElem hi]
  rw [htake, List.filter_append, List.map_append]
  have hself : List.filter (fun q => decide (q.region = t[i].region)) [t[i]]
      = [t[i]] := by
    simp
  rw [hself]
  rw [show List.map Row.temp [t[i]] = [t[i].temp] from rfl]
  exact rollAtEnd_one_append _ _

/-- Witness table for the rolling-mean claims. -/
def wTable : List Row :=
  [⟨"A", 0, some 7, none⟩]

/-- Witness for `temp_roll_window_one` at a concrete one-row table. -/
theorem temp_roll_window_one_witness :
    (temp_roll 1 wTable).getD 0 none = (wTable.map Row.temp).getD 0 none :=
  temp_roll_window_one wTable 0 (by decide)

theorem rollAtEnd_of_len_le (w : Nat) (xs : List (Option ℚ))
    (h : xs.length ≤ w) : rollAtEnd w 1 xs = meanOpt xs := by
  have hfull : lastN w xs = xs := by
    rw [lastN, Nat.sub_eq_zero_of_le h, List.drop_zero]
  rw [rollAtEnd, hfull]
  by_cases hv : somes xs = []
  · rw [meanOpt, if_pos hv, hv]
    simp
  · rw [meanOpt, if_neg hv]
    have hpos : 1 ≤ (somes xs).length := by
      have := List.length_pos.mpr hv
      omega
    simp [hpos]

theorem meanOpt_eq_none_iff (xs : List (Option ℚ)) :
    meanOpt xs = none ↔ somes xs = [] := by
  by_cases hv : somes xs = []
  · simp [meanOpt, hv]
  · simp [meanOpt, hv]

/-- Claim C4 (counterexample): a region series whose first value is null,
with window 2, has an undefined (null) rolling value at its first row —
the rolling value is not "never undefined": with `min_periods=1`, a
window containing no non-null observation yields NaN. -/
theorem rolling_mean_null_start :
    rollingMean 2 1 [(none : Option ℚ)] = [none] := rfl

/-- Claim C4 (amended): for a region series and any window `N` at least
the series length, the rolling value at row `i` is the skip-null mean of
the whole prefix up to `i` (so at the last row it is the arithmetic mean
of the non-null values of the entire series), and it is the mean of
however many non-null rows are available — being undefined (null) exactly
when every row of the prefix is null. -/
theorem rolling_mean_full_window (xs : List (Option ℚ)) (N i : Nat)
    (hN : xs.length ≤ N) (hi : i < xs.length) :
    (rollingMean N 1 xs).getD i none = meanOpt (xs.take (i + 1))
    ∧ (i = xs.length - 1 → (rollingMean N 1 xs).getD i none = meanOpt xs)
    ∧ ((rollingMean N 1 xs).getD i none = none ↔ somes (xs.take (i + 1)) = []) := by
  have hlen : i < (rollingMean N 1 xs).length := by
    simpa [rollingMean] using hi
  have hval : (rollingMean N 1 xs).getD i none = meanOpt (xs.take (i + 1)) := by
    rw [List.getD_eq_getElem _ _ hlen]
    simp only [rollingMean]
    rw [List.getElem_mapIdx]
    apply rollAtEnd_of_len_le
    have : (xs.take (i + 1)).length = min (i + 1) xs.length := List.length_take _ _
    omega
  refine ⟨hval, ?_, ?_⟩
  · intro hlast
    have hidx : i + 1 = xs.length := by omega
    rw [hval, hidx, List.take_length]
  · rw [hval]
    exact meanOpt_eq_none_iff _

/-- Witness for `rolling_mean_full_window` at a concrete two-row series
with window 2. -/
theorem rolling_mean_full_window_witness :
    (rollingMean 2 1 [some 1, some 3]).getD 1 none
      = meanOpt ([some (1 : ℚ), some 3].take 2)
    ∧ (1 = [some (1 : ℚ), some 3].length - 1 →
        (rollingMean 2 1 [some 1, some 3]).getD 1 none
          = meanOpt [some (1 : ℚ), some 3])
    ∧ ((rollingMean 2 1 [some 1, some 3]).getD 1 none = none
        ↔ somes ([some (1 : ℚ), some 3].take 2) = []) :=
  rolling_mean_full_window [some 1, some 3] 2 1 (by decide) (by decide)

/-- The indicator `s >= 40` of app.py line 180: pandas comparison with a
NaN (null) value is False. -/
def geq40 (x : Option ℚ) : Bool :=
  match x with
  | some v => decide (40 ≤ v)
  | none => false

/-- `pandas.Series.max()` with default skipna: the maximum of the
non-null values, NaN (`none`) when there are none. -/
def maxOpt (xs : List (Option ℚ)) : Option ℚ :=
  (somes xs).max?

/-- One row of the `stats` table of app.py lines 177-182. -/
structure Summary where
  avg_temp : Option ℚ
  max_temp : Option ℚ
  hot_days : Nat
  total_precip : ℚ
deriving DecidableEq, Repr

/-- The rows of one region's group under `data.groupby("region")`. -/
def regionRows (t : List Row) (name : String) : List Row :=
  t.filter (fun r => decide (r.region = name))

/-- app.py lines 177-182: per-region aggregates
`avg_temp=("temp","mean")`, `max_temp=("temp","max")`,
`hot_days=("temp", lambda s: (s>=40).sum())`,
`total_precip=("precip","sum")`, with pandas skip-NaN semantics
(`mean`/`max` of an all-null column are NaN; summing booleans counts the
`True`s; `sum` of an all-null column is 0). -/
def stats (t : List Row) (name : String) : Summary :=
  { avg_temp := meanOpt ((regionRows t name).map Row.temp)
    max_temp := maxOpt ((regionRows t name).map Row.temp)
    hot_days := (((regionRows t name).map Row.temp).map geq40).count true
    total_precip := (somes ((regionRows t name).map Row.precip)).sum }

/-- The region name used by the concrete example tables. -/
def regA : String := "A"

/-- Example table for the hot-day count: one region with temperature
series [38, 40, 41, 39]. -/
def hotTable : List Row :=
  [⟨"A", 0, some 38, none⟩, ⟨"A", 1, some 40, none⟩,
   ⟨"A", 2, some 41, none⟩, ⟨"A", 3, some 39, none⟩]

/-- Claim C5: for every table and region, `hot_days` equals the exact
count of that region's rows whose temperature is non-null and ≥ 40; on
the series [38, 40, 41, 39] it is 2. -/
theorem stats_hot_day_count (t : List Row) (name : String) :
    (stats t name).hot_days
      = ((regionRows t name).filter (fun r => geq40 r.temp)).length
    ∧ (stats hotTable regA).hot_days = 2 := by
  constructor
  · show (((regionRows t name).map Row.temp).map geq40).count true = _
    rw [List.map_map, List.count_eq_countP, List.countP_map]
    rw [← List.countP_eq_length_filter]
    apply List.countP_congr
    intro r _
    simp [Function.comp]
  · show (((regionRows hotTable regA).map Row.temp).map geq40).count true = 2
    norm_num [regionRows, hotTable, regA, geq40, List.count_cons]

/-- Table whose only region has all-null temperatures (precipitation
partly non-null). -/
def allNullTable : List Row :=
  [⟨"A", 0, none, some 5⟩, ⟨"A", 1, none, none⟩]

/-- Claim C6 (counterexample): for a region whose temperatures are all
null, `avg_temp` and `max_temp` are indeed null, but `hot_days` is the
number 0 and `total_precip` is the skip-null sum (here 5) — not
null/undefined as the claim states for all four aggregates. -/
theorem stats_all_null_counterexample :
    (∀ r ∈ regionRows allNullTable regA, r.temp = none)
    ∧ (stats allNullTable regA).avg_temp = none
    ∧ (stats allNullTable regA).max_temp = none
    ∧ (stats allNullTable regA).hot_days = 0
    ∧ (stats allNullTable regA).total_precip = 5 := by
  refine ⟨by decide, ?_, by decide, by decide, ?_⟩
  · show meanOpt ((regionRows allNullTable regA).map Row.temp) = none
    decide
  · show (somes ((regionRows allNullTable regA).map Row.precip)).sum = 5
    norm_num [regionRows, allNullTable, regA, somes, List.filterMap_cons]

/-- Claim C6 (amended): for every region whose temperatures are all null,
`avg_temp` and `max_temp` are null (not zero), while `hot_days` is 0 and
`total_precip` is the skip-null sum of the region's precipitation values
(0 when those are all null too). -/
theorem stats_all_null (t : List Row) (name : String)
    (h : ∀ r ∈ regionRows t name, r.temp = none) :
    (stats t name).avg_temp = none
    ∧ (stats t name).max_temp = none
    ∧ (stats t name).hot_days = 0
    ∧ (stats t name).total_precip
        = (somes ((regionRows t name).map Row.precip)).sum := by
  have hsomes : somes ((regionRows t name).map Row.temp) = [] := by
    rw [somes, List.filterMap_eq_nil_iff]
    intro a ha
    rcases List.mem_map.mp ha with ⟨r, hr, rfl⟩
    exact h r hr
  refine ⟨?_, ?_, ?_, rfl⟩
  · show meanOpt _ = none
    rw [meanOpt, if_pos hsomes]
  · show maxOpt _ = none
    rw [maxOpt, hsomes]
    rfl
  · show (((regionRows t name).map Row.temp).map geq40).count true = 0
    rw [List.count_eq_zero]
    intro hmem
    rcases List.mem_map.mp hmem with ⟨x, hx, hgx⟩
    rcases List.mem_map.mp hx with ⟨r, hr, rfl⟩
    rw [h r hr] at hgx
    exact Bool.false_ne_true hgx

/-- Witness for `stats_all_null` at the concrete all-null-temperature
table. -/
theorem stats_all_null_witness :
    (stats allNullTable regA).avg_temp = none
    ∧ (stats allNullTable regA).max_temp = none
    ∧ (stats allNullTable regA).hot_days = 0
    ∧ (stats allNullTable regA).total_precip
        = (somes ((regionRows allNullTable regA).map Row.precip)).sum :=
  stats_all_null allNullTable regA (by decide)

/-- `df["region"] = name`: tag every row of a single-region table with the
region name. -/
def tagRegion (name : String) (rs : List ORow) : List Row :=
  rs.map (fun o => ⟨name, o.date, o.temp, o.precip⟩)

/-- Column order of the single-region DataFrame built by
`fetch_open_meteo_single` / `fetch_region`: the dict-literal insertion
order date, temp, precip. -/
def singleCols : List String :=
  ["date", "temp", "precip"]

/-- A DataFrame: a column-name header plus its rows. -/
structure DF where
  cols : List String
  rows : List Row
deriving DecidableEq, Repr

/-- The loop of `fetch_open_meteo_multi` (app.py lines 91-102): for each
region in mapping order, invoke the single-region fetch (which may raise,
modelled as `Except.error`), tag the rows with the region name and
accumulate.  An exception propagates immediately, aborting the loop.  The
second component counts how many single-region fetches were invoked. -/
def multiGo (fetch : ℚ × ℚ → Except String (List ORow)) :
    List (String × ℚ × ℚ) → List Row → Nat → Except String (List Row) × Nat
  | [], acc, calls => (Except.ok acc, calls)
  | (name, coords) :: rest, acc, calls =>
    match fetch coords with
    | Except.error e => (Except.error e, calls + 1)
    | Except.ok rs => multiGo fetch rest (acc ++ tagRegion name rs) (calls + 1)

/-- `fetch_open_meteo_multi(regions_map, start_date, end_date)` of app.py
lines 89-106, parameterised by the single-region fetch: runs the loop,
then either concatenates the per-region tables (columns date, temp,
precip, region) or — when the mapping was empty — returns the explicit
empty DataFrame `pd.DataFrame(columns=["date","temp","precip","region"])`. -/
def fetch_open_meteo_multi (fetch : ℚ × ℚ → Except String (List ORow))
    (regions : List (String × ℚ × ℚ)) : Except String DF × Nat :=
  match multiGo fetch regions [] 0 with
  | (Except.error e, n) => (Except.error e, n)
  | (Except.ok rows, n) =>
    match regions with
    | [] => (Except.ok ⟨["date", "temp", "precip", "region"], rows⟩, n)
    | _ :: _ => (Except.ok ⟨singleCols ++ ["region"], rows⟩, n)

theorem multiGo_fail (fetch : ℚ × ℚ → Except String (List ORow)) :
    ∀ (regions : List (String × ℚ × ℚ)) (acc : List Row) (calls : Nat),
      (∃ r ∈ regions, ∃ e, fetch r.2 = Except.error e) →
      ∃ e, (multiGo fetch regions acc calls).1 = Except.error e
        ∧ ∃ r ∈ regions, fetch r.2 = Except.error e := by
  intro regions
  induction regions with
  | nil =>
    intro acc calls h
    obtain ⟨r, hr, -⟩ := h
    exact absurd hr (List.not_mem_nil r)
  | cons hd rest ih =>
    intro acc calls h
    obtain ⟨name, coords⟩ := hd
    cases hf : fetch coords with
    | error e =>
      refine ⟨e, ?_, (name, coords), List.mem_cons_self _ _, hf⟩
      simp [multiGo, hf]
    | ok rs =>
      obtain ⟨r, hr, e, he⟩ := h
      rcases List.mem_cons.mp hr with rfl | hr2
      · rw [hf] at he
        cases he
      · obtain ⟨e2, hres, r2, hmem, he2⟩ :=
          ih (acc ++ tagRegion name rs) (calls + 1) ⟨r, hr2, e, he⟩
        refine ⟨e2, ?_, r2, List.mem_cons_of_mem _ hmem, he2⟩
        simpa [multiGo, hf] using hres

/-- Claim C7: if the fetch of any region in the mapping fails, the whole
multi-region aggregation fails — it returns (raises) one of the failing
regions' underlying errors, and no partial combined table is produced. -/
theorem fetch_multi_fail (fetch : ℚ × ℚ → Except String (List ORow))
    (regions : List (String × ℚ × ℚ))
    (h : ∃ r ∈ regions, ∃ e, fetch r.2 = Except.error e) :
    ∃ e, (fetch_open_meteo_multi fetch regions).1 = Except.error e
      ∧ ∃ r ∈ regions, fetch r.2 = Except.error e := by
  obtain ⟨e, hres, hwit⟩ := multiGo_fail fetch regions [] 0 h
  refine ⟨e, ?_, hwit⟩
  simp only [fetch_open_meteo_multi]
  cases hm : multiGo fetch regions [] 0 with
  | mk res n =>
    rw [hm] at hres
    cases res with
    | error e2 =>
      cases hres
      cases regions <;> rfl
    | ok rows => cases hres

/-- Fetch stub that always fails, for the witness. -/
def failFetch : ℚ × ℚ → Except String (List ORow) :=
  fun _ => Except.error boomMsg

/-- Witness for `fetch_multi_fail`: a one-region mapping whose fetch
fails. -/
theorem fetch_multi_fail_witness :
    ∃ e, (fetch_open_meteo_multi failFetch [("A", 1, 2)]).1 = Except.error e
      ∧ ∃ r ∈ [("A", (1 : ℚ), (2 : ℚ))], failFetch r.2 = Except.error e :=
  fetch_multi_fail failFetch [("A", 1, 2)]
    ⟨("A", 1, 2), List.mem_singleton.mpr rfl, boomMsg, rfl⟩

/-- Claim C10: for the empty regions mapping, `fetch_open_meteo_multi`
returns the empty table with exactly the columns date, temp, precip,
region, performs no single-region fetch (hence no network call), and
raises no error. -/
theorem fetch_multi_empty (fetch : ℚ × ℚ → Except String (List ORow)) :
    fetch_open_meteo_multi fetch []
      = (Except.ok ⟨["date", "temp", "precip", "region"], []⟩, 0) := rfl

/-- The comparison used by `sort_values(["region","date"])`: lexicographic
on (region, date), regions compared as strings. -/
def rowLE (a b : Row) : Bool :=
  if a.region = b.region then decide (a.date ≤ b.date)
  else decide (a.region < b.region)

/-- The sort order as a relation. -/
def rowRel (a b : Row) : Prop :=
  rowLE a b = true

instance : DecidableRel rowRel :=
  fun a b => Bool.decEq (rowLE a b) true

theorem rowLE_total (a b : Row) : rowLE a b = true ∨ rowLE b a = true := by
  unfold rowLE
  by_cases h : a.region = b.region
  · rw [if_pos h, if_pos h.symm]
    rcases Nat.le_total a.date b.date with hd | hd
    · exact Or.inl (decide_eq_true hd)
    · exact Or.inr (decide_eq_true hd)
  · rw [if_neg h, if_neg (fun hh => h hh.symm)]
    rcases lt_or_gt_of_ne h with hlt | hgt
    · exact Or.inl (decide_eq_true hlt)
    · exact Or.inr (decide_eq_true hgt)

theorem rowLE_trans (a b c : Row) (hab : rowLE a b = true)
    (hbc : rowLE b c = true) : rowLE a c = true := by
  unfold rowLE at hab hbc ⊢
  by_cases h1 : a.region = b.region <;> by_cases h2 : b.region = c.region
  · rw [if_pos h1] at hab
    rw [if_pos h2] at hbc
    rw [if_pos (h1.trans h2)]
    exact decide_eq_true (Nat.le_trans (of_decide_eq_true hab) (of_decide_eq_true hbc))
  · rw [if_neg h2] at hbc
    have hlt : b.region < c.region := of_decide_eq_true hbc
    have hne : a.region ≠ c.region := by
      rw [h1]
      exact ne_of_lt hlt
    rw [if_neg hne]
    exact decide_eq_true (h1 ▸ hlt)
  · rw [if_neg h1] at hab
    have hlt : a.region < b.region := of_decide_eq_true hab
    have hne : a.region ≠ c.region := by
      rw [← h2]
      exact ne_of_lt hlt
    rw [if_neg hne]
    exact decide_eq_true (h2 ▸ hlt)
  · rw [if_neg h1] at hab
    rw [if_neg h2] at hbc
    have hlt : a.region < c.region :=
      lt_trans (of_decide_eq_true hab) (of_decide_eq_true hbc)
    rw [if_neg (ne_of_lt hlt)]
    exact decide_eq_true hlt

instance : IsTotal Row rowRel :=
  ⟨rowLE_total⟩

instance : IsTrans Row rowRel :=
  ⟨rowLE_trans⟩

/-- `big.sort_values(["region","date"])`: a comparison sort by
(region, date).  pandas' default sort kind guarantees only the ordering,
so any comparison sort models it; insertion sort is used here. -/
def sortRows (rows : List Row) : List Row :=
  List.insertionSort rowRel rows

/-- Column order of the combined prefetch DataFrame: the single-region
columns with the appended region tag. -/
def csvCols : List String :=
  singleCols ++ ["region"]

/-- The fetch loop of `main` (fetch.py lines 60-65): one tagged table per
region, in order, aborting on the first fetch error. -/
def fetchTables (fetchR : ℚ × ℚ → Except String (List ORow)) :
    List (String × ℚ × ℚ) → Except String (List (List Row))
  | [] => Except.ok []
  | (name, coords) :: rest =>
    match fetchR coords with
    | Except.error e => Except.error e
    | Except.ok rs =>
      match fetchTables fetchR rest with
      | Except.error e => Except.error e
      | Except.ok ts => Except.ok (tagRegion name rs :: ts)

/-- `main()` of fetch.py lines 59-73: fetch all regions, and if any table
was produced, concatenate, sort by (region, date) and write data.csv —
modelled as the written file's (header, rows); `none` models the
`print("No data fetched")` branch that writes no file. -/
def mainRun (fetchR : ℚ × ℚ → Except String (List ORow))
    (regions : List (String × ℚ × ℚ)) :
    Except String (Option (List String × List Row)) :=
  match fetchTables fetchR regions with
  | Except.error e => Except.error e
  | Except.ok [] => Except.ok none
  | Except.ok ts => Except.ok (some (csvCols, sortRows ts.flatten))

/-- Fetch stub that returns one row, for the C8 example run. -/
def okFetch : ℚ × ℚ → Except String (List ORow) :=
  fun _ => Except.ok [⟨0, none, none⟩]

/-- Claim C8 (counterexample): on a concrete successful run the written
file's header row is date, temp, precip, region — not
region, date, mean_temperature, precipitation as claimed: the region
column is appended after the dict-ordered date/temp/precip columns, and
the file keeps the short names temp and precip. -/
theorem main_header_counterexample :
    mainRun okFetch [("A", 1, 2)]
      = Except.ok (some (["date", "temp", "precip", "region"],
          [⟨"A", 0, none, none⟩]))
    ∧ (["date", "temp", "precip", "region"] : List String)
        ≠ ["region", "date", "mean_temperature", "precipitation"] := by
  exact ⟨rfl, by decide⟩

/-- Claim C8 (amended): whenever the prefetch run writes a file, that
file's header row is date, temp, precip, region, and its rows are sorted
by (region, date) and are a permutation of the concatenation of the
per-region tagged tables. -/
theorem main_output (fetchR : ℚ × ℚ → Except String (List ORow))
    (regions : List (String × ℚ × ℚ)) (hdr : List String) (rows : List Row)
    (h : mainRun fetchR regions = Except.ok (some (hdr, rows))) :
    hdr = ["date", "temp", "precip", "region"]
    ∧ List.Sorted rowRel rows
    ∧ ∃ ts, fetchTables fetchR regions = Except.ok ts
        ∧ rows.Perm ts.flatten := by
  rw [mainRun] at h
  cases hf : fetchTables fetchR regions with
  | error e =>
    rw [hf] at h
    cases h
  | ok ts =>
    rw [hf] at h
    cases ts with
    | nil => cases h
    | cons t ts2 =>
      have h2 : (csvCols, sortRows (t :: ts2).flatten) = (hdr, rows) := by
        injection h with h3
        injection h3
      have hhdr : hdr = csvCols := (congrArg Prod.fst h2).symm
      have hrows : rows = sortRows (t :: ts2).flatten := (congrArg Prod.snd h2).symm
      refine ⟨hhdr, ?_, (t :: ts2), rfl, ?_⟩
      · rw [hrows]
        exact List.sorted_insertionSort rowRel _
      · rw [hrows]
        exact List.perm_insertionSort rowRel _

/-- Witness for `main_output` at a concrete one-region run. -/
theorem main_output_witness :
    (["date", "temp", "precip", "region"] : List String)
      = ["date", "temp", "precip", "region"]
    ∧ List.Sorted rowRel [(⟨"A", 0, none, none⟩ : Row)]
    ∧ ∃ ts, fetchTables okFetch [("A", 1, 2)] = Except.ok ts
        ∧ List.Perm [(⟨"A", 0, none, none⟩ : Row)] ts.flatten :=
  main_output okFetch [("A", 1, 2)] ["date", "temp", "precip", "region"]
    [⟨"A", 0, none, none⟩] rfl

/-- The cache key of `fetch_open_meteo_single`: its argument tuple
(lat, lon, start_date, end_date). -/
structure CKey where
  lat : ℚ
  lon : ℚ
  start_date : Nat
  end_date : Nat
deriving DecidableEq, Repr

/-- A cache: entries of key, stored table and insertion time. -/
def Cache : Type :=
  List (CKey × List ORow × ℚ)

/-- Look up the entry stored for a key. -/
def lookupEntry (c : Cache) (k : CKey) : Option (List ORow × ℚ) :=
  (c.find? (fun e => decide (e.1 = k))).map Prod.snd

/-- Result of one cached fetch: the returned table, the cache afterwards,
and how many loader (network) invocations the call performed. -/
structure FetchOut where
  value : List ORow
  cache : Cache
  loaderCalls : Nat

/-- Modelled from the spec: the Dataset Cache of spec section 4.5 — the
implementation is the external `st.cache_data(ttl=3600)` decorator on
`fetch_open_meteo_single` (app.py line 70), not code of this repository.
`get_or_fetch(key, loader)`: on a hit whose age is within the TTL, return
the stored table without invoking the loader; on a miss or expiry, invoke
the loader (which may return different data at different times, hence the
time argument), store the result with the current timestamp, and return
it. -/
def get_or_fetch (ttl : ℚ) (loader : ℚ → CKey → List ORow) (now : ℚ)
    (c : Cache) (k : CKey) : FetchOut :=
  match lookupEntry c k with
  | some (v, t) =>
    if now < t + ttl then ⟨v, c, 0⟩
    else
      ⟨loader now k,
        (k, loader now k, now) :: c.filter (fun e => ! decide (e.1 = k)), 1⟩
  | none =>
      ⟨loader now k,
        (k, loader now k, now) :: c.filter (fun e => ! decide (e.1 = k)), 1⟩

/-- Two successive cached fetches of the same key at times `t1` and `t2`,
starting from an empty cache. -/
def twoCalls (ttl : ℚ) (loader : ℚ → CKey → List ORow) (k : CKey)
    (t1 t2 : ℚ) : FetchOut × FetchOut :=
  (get_or_fetch ttl loader t1 [] k,
   get_or_fetch ttl loader t2 (get_or_fetch ttl loader t1 [] k).cache k)

/-- Claim C9: with TTL 3600s, the first call on a fresh cache performs
exactly one loader (network) invocation; a second call with the identical
key within the TTL performs none and returns the stored table (the data
fetched at `t1`, even if the network would answer differently at `t2`);
a second call at or after TTL expiry performs a second loader invocation
and returns freshly loaded data. -/
theorem cache_ttl_single_fetch (loader : ℚ → CKey → List ORow) (k : CKey)
    (t1 t2 : ℚ) :
    ((twoCalls 3600 loader k t1 t2).1.value = loader t1 k
      ∧ (twoCalls 3600 loader k t1 t2).1.loaderCalls = 1)
    ∧ (t2 < t1 + 3600 →
        (twoCalls 3600 loader k t1 t2).2.value = loader t1 k
        ∧ (twoCalls 3600 loader k t1 t2).2.loaderCalls = 0)
    ∧ (t1 + 3600 ≤ t2 →
        (twoCalls 3600 loader k t1 t2).2.value = loader t2 k
        ∧ (twoCalls 3600 loader k t1 t2).2.loaderCalls = 1) := by
  have hfirst : get_or_fetch 3600 loader t1 [] k
      = ⟨loader t1 k, [(k, loader t1 k, t1)], 1⟩ := rfl
  have hlook : lookupEntry [(k, loader t1 k, t1)] k
      = some (loader t1 k, t1) := by
    simp [lookupEntry]
  refine ⟨⟨by rw [twoCalls, hfirst], by rw [twoCalls, hfirst]⟩, ?_, ?_⟩
  · intro hin
    have h2 : get_or_fetch 3600 loader t2 [(k, loader t1 k, t1)] k
        = ⟨loader t1 k, [(k, loader t1 k, t1)], 0⟩ := by
      rw [get_or_fetch, hlook]
      exact if_pos hin
    constructor
    · show (get_or_fetch 3600 loader t2 (get_or_fetch 3600 loader t1 [] k).cache k).value = _
      rw [hfirst, h2]
    · show (get_or_fetch 3600 loader t2 (get_or_fetch 3600 loader t1 [] k).cache k).loaderCalls = _
      rw [hfirst, h2]
  · intro hout
    have h2 : get_or_fetch 3600 loader t2 [(k, loader t1 k, t1)] k
        = ⟨loader t2 k,
            (k, loader t2 k, t2)
              :: [(k, loader t1 k, t1)].filter (fun e => ! decide (e.1 = k)),
            1⟩ := by
      rw [get_or_fetch, hlook]
      exact if_neg (not_lt.mpr hout)
    constructor
    · show (get_or_fetch 3600 loader t2 (get_or_fetch 3600 loader t1 [] k).cache k).value = _
      rw [hfirst, h2]
    · show (get_or_fetch 3600 loader t2 (get_or_fetch 3600 loader t1 [] k).cache k).loaderCalls = _
      rw [hfirst, h2]

/-- Loader stub for the cache witness. -/
def cLoader : ℚ → CKey → List ORow :=
  fun _ _ => []

/-- Key used by the cache witness. -/
def cKey0 : CKey :=
  ⟨0, 0, 0, 0⟩

/-- Witness for `cache_ttl_single_fetch`: a second call 100s after the
first hits the cache; a second call 5000s after the first misses. -/
theorem cache_ttl_single_fetch_witness :
    ((twoCalls 3600 cLoader cKey0 0 100).2.value = cLoader 0 cKey0
      ∧ (twoCalls 3600 cLoader cKey0 0 100).2.loaderCalls = 0)
    ∧ ((twoCalls 3600 cLoader cKey0 0 5000).2.value = cLoader 5000 cKey0
      ∧ (twoCalls 3600 cLoader cKey0 0 5000).2.loaderCalls = 1) :=
  ⟨(cache_ttl_single_fetch cLoader cKey0 0 100).2.1 (by norm_num),
   (cache_ttl_single_fetch cLoader cKey0 0 5000).2.2 (by norm_num)⟩

end IndiaWeather
